import Mathlib

/-!
Verification of the `Chat` wrapper component (src/components/Chat.js) of
stream-chat-react-native: a shallow embedding of its state, its constructor,
its lifecycle methods and its event callbacks, together with theorems about
the connection-bridging behaviour the component implements.

Modelling conventions:
- `this.state` becomes `ChatState`; the instance fields `_unmounted` and
  `unsubscribeNetInfo` live beside it in `ChatComponent`.
- JS `null`/`undefined` values become `Option` (`none` = null/undefined).
- The string `'unknown'` initially stored in `isOnline` becomes
  `OnlineFlag.unknown`; booleans stored later become `OnlineFlag.known b`.
- Calls into external collaborators (client registrations, `off`,
  `storage.close()`, `wsConnection.onlineStatusChanged`) are recorded as
  explicit action values, since their effects live outside this component.
- A JS `throw` becomes an explicit error value (`Except.error` / `some msg`).
-/

namespace StreamChat

/-- The value of `this.state.isOnline`: the constructor seeds it with the
string `'unknown'`; every later write stores a boolean. -/
inductive OnlineFlag
  | unknown
  | known (b : Bool)
deriving DecidableEq

/-- An active-channel value: the constructor seeds `channel` with the empty
object `{}`; callers of `setActiveChannel` pass an opaque channel object
(`handle`) or conceivably `null`. -/
inductive ChannelHandle
  | emptyObj
  | null
  | handle (id : Nat)
deriving DecidableEq

/-- The slice of the external client the component reads directly:
`client.wsConnection` may be null. -/
structure Client where
  wsConnection : Option Unit
deriving DecidableEq

/-- A value passed as the `storage` prop: either an actual `LocalStorage`
instance or some other object (which fails the `instanceof` test). -/
inductive StorageArg
  | localStorage (id : Nat)
  | otherObject (id : Nat)
deriving DecidableEq

/-- The JS `instanceof LocalStorage` test on a supplied storage object. -/
def instanceOfLocalStorage : StorageArg → Bool
  | StorageArg.localStorage _ => true
  | StorageArg.otherObject _ => false

/-- `this.state` of the component. -/
structure ChatState where
  channel : ChannelHandle
  startedOffline : Bool
  isOnline : OnlineFlag
  connectionRecovering : Bool
deriving DecidableEq

/-- The component instance: its state plus the instance fields `_unmounted`
and `unsubscribeNetInfo` (the latter is `null` until the mount-time
`NetInfo.fetch()` continuation installs the listener). -/
structure ChatComponent where
  state : ChatState
  unmounted : Bool
  unsubscribeNetInfo : Option Unit
deriving DecidableEq

/-- The state the constructor builds:
`{ channel: {}, startedOffline: true, isOnline: 'unknown',
connectionRecovering: false }`. -/
def initState : ChatState :=
  { channel := ChannelHandle.emptyObj
    startedOffline := true
    isOnline := OnlineFlag.unknown
    connectionRecovering := false }

/-- The component as a successful constructor leaves it: initial state,
`unsubscribeNetInfo = null`, `_unmounted = false`. -/
def initComponent : ChatComponent :=
  { state := initState
    unmounted := false
    unsubscribeNetInfo := none }

/-- The three client events the constructor registers observers for.
`connectionChanged b` carries `event.online = b`. -/
inductive ClientEvent
  | connectionChanged (online : Bool)
  | connectionEstablished
  | connectionRecovered
deriving DecidableEq

/-- The three observers the constructor registers with `client.on`.  Each
starts with `if (this._unmounted) return;`; then:
`connection.changed` sets `isOnline := event.online` and
`connectionRecovering := !event.online`; `connection.established` and
`connection.recovered` set `isOnline := true` and
`connectionRecovering := false`. -/
def handleClientEvent (c : ChatComponent) (e : ClientEvent) : ChatComponent :=
  if c.unmounted then c
  else
    match e with
    | ClientEvent.connectionChanged online =>
        { c with state :=
            { c.state with
                isOnline := OnlineFlag.known online
                connectionRecovering := !online } }
    | ClientEvent.connectionEstablished =>
        { c with state :=
            { c.state with
                isOnline := OnlineFlag.known true
                connectionRecovering := false } }
    | ClientEvent.connectionRecovered =>
        { c with state :=
            { c.state with
                isOnline := OnlineFlag.known true
                connectionRecovering := false } }

/-- Deliver a list of client events in order. -/
def runClientEvents (c : ChatComponent) : List ClientEvent → ChatComponent
  | [] => c
  | e :: es => runClientEvents (handleClientEvent c e) es

/-- `setActiveChannel`: `if (this._unmounted) return; this.setState({channel})`. -/
def setActiveChannel (c : ChatComponent) (channel : ChannelHandle) : ChatComponent :=
  if c.unmounted then c
  else { c with state := { c.state with channel := channel } }

/-- `verifyStorage`: returns when no storage prop was given, returns when
the prop is a `LocalStorage` instance, otherwise throws
`Invalid storage class provided to Chat component`. -/
def verifyStorage (storage : Option StorageArg) : Except String Unit :=
  match storage with
  | none => Except.ok ()
  | some s =>
      if instanceOfLocalStorage s then Except.ok ()
      else Except.error "Invalid storage class provided to Chat component"

/-- `isOfflineModeEnabled`: `this.props.storage && this.props.storage
instanceof LocalStorage`, read as a boolean. -/
def isOfflineModeEnabled (storage : Option StorageArg) : Bool :=
  match storage with
  | none => false
  | some s => instanceOfLocalStorage s

/-- A status payload sent through `wsConnection.onlineStatusChanged`. -/
inductive StatusNotification
  | online
  | offline
deriving DecidableEq

/-- `notifyChatClient(isConnected)`: when both `this.props.client` and
`this.props.client.wsConnection` are non-null it sends `{type: 'online'}`
or `{type: 'offline'}`; otherwise it does nothing.  The returned value is
the notification sent, if any; the function is total (never throws). -/
def notifyChatClient (client : Option Client) (isConnected : Bool) :
    Option StatusNotification :=
  match client with
  | none => none
  | some cl =>
      match cl.wsConnection with
      | none => none
      | some _ =>
          if isConnected then some StatusNotification.online
          else some StatusNotification.offline

/-- The continuation of `NetInfo.fetch().then(...)` run at mount time with
the fetched reachability: it calls
`setState({ isOnline: isConnected, startedOffline: !isConnected })`, then
`notifyChatClient(isConnected)`, then installs the reachability listener
(assigning `unsubscribeNetInfo`).  The source has no `_unmounted` guard in
this continuation.  Returns the updated component and the notification
sent. -/
def netInfoFetchThen (client : Option Client) (c : ChatComponent)
    (isConnected : Bool) : ChatComponent × Option StatusNotification :=
  ({ c with
      state :=
        { c.state with
            isOnline := OnlineFlag.known isConnected
            startedOffline := !isConnected }
      unsubscribeNetInfo := some () },
    notifyChatClient client isConnected)

/-- The call a reachability-change listener invocation makes on the client:
either the full `client._setupConnection()` or the `notifyChatClient` path
(whose argument records what, if anything, was sent). -/
inductive NetCall
  | setupConnection
  | notify (sent : Option StatusNotification)
deriving DecidableEq

/-- The reachability-change listener installed by `setConnectionListener`:
`if (isConnected && this.state.startedOffline)` it awaits
`client._setupConnection()`, otherwise it calls
`notifyChatClient(isConnected)`.  It never writes the component state. -/
def netInfoListener (client : Option Client) (c : ChatComponent)
    (isConnected : Bool) : NetCall :=
  if isConnected && c.state.startedOffline then NetCall.setupConnection
  else NetCall.notify (notifyChatClient client isConnected)

/-- An externally visible action the constructor performs. -/
inductive ConstructorAction
  | register (eventName : String)
  | setStorageLogger
deriving DecidableEq

/-- The constructor: builds the initial state, registers the three client
observers (`connection.changed`, `connection.established`,
`connection.recovered`), then runs `verifyStorage` (which may throw), then
binds the logger into the storage when one was supplied (`logger` defaults
to a no-op function, which is truthy), then sets `_unmounted = false`.
Returns the actions performed before returning or throwing, and the
constructed component or the error. -/
def constructorRun (storage : Option StorageArg) :
    List ConstructorAction × Except String ChatComponent :=
  match verifyStorage storage with
  | Except.error e =>
      ([ConstructorAction.register "connection.changed",
        ConstructorAction.register "connection.established",
        ConstructorAction.register "connection.recovered"],
        Except.error e)
  | Except.ok _ =>
      ([ConstructorAction.register "connection.changed",
        ConstructorAction.register "connection.established",
        ConstructorAction.register "connection.recovered"]
          ++ (if storage.isSome then [ConstructorAction.setStorageLogger] else []),
        Except.ok initComponent)

/-- The data fields of the object `getContext` returns (`setActiveChannel`
and `logger` are function-valued fields and are not modelled as data). -/
structure PublishedContext where
  client : Option Client
  channel : ChannelHandle
  isOnline : OnlineFlag
  connectionRecovering : Bool
  storage : Option StorageArg
  offlineMode : Bool
deriving DecidableEq

/-- `getContext()`: a pure projection of props and state;
`offlineMode := this.isOfflineModeEnabled()`. -/
def getContext (client : Option Client) (storage : Option StorageArg)
    (c : ChatComponent) : PublishedContext :=
  { client := client
    channel := c.state.channel
    isOnline := c.state.isOnline
    connectionRecovering := c.state.connectionRecovering
    storage := storage
    offlineMode := isOfflineModeEnabled storage }

/-- An externally visible action teardown performs.  `offName s` is
`client.off(s)`; `offCallback cb` is `client.off(this.handleEvent)` — the
class defines no `handleEvent` property, so the value passed is
`undefined`, recorded as `offCallback none`. -/
inductive TeardownAction
  | setUnmountedFlag
  | offName (eventName : String)
  | offCallback (cb : Option Unit)
  | unsubscribeNetInfoCall
  | storageClose
deriving DecidableEq

/-- `componentWillUnmount`: after the diagnostic log call it sets
`_unmounted = true`, calls `client.off('connection.recovered')`,
`client.off('connection.changed')`, `client.off(this.handleEvent)` (with
`this.handleEvent` undefined), then calls `this.unsubscribeNetInfo()` —
which throws a TypeError when the field is still `null` — and finally
`this.isOfflineModeEnabled() && this.props.storage.close()`.  Returns the
component after the flag write, the actions performed, and the error
thrown, if any. -/
def componentWillUnmount (storage : Option StorageArg) (c : ChatComponent) :
    ChatComponent × List TeardownAction × Option String :=
  match c.unsubscribeNetInfo with
  | none =>
      ({ c with unmounted := true },
        [TeardownAction.setUnmountedFlag,
         TeardownAction.offName "connection.recovered",
         TeardownAction.offName "connection.changed",
         TeardownAction.offCallback none],
        some "TypeError: this.unsubscribeNetInfo is not a function")
  | some _ =>
      ({ c with unmounted := true },
        [TeardownAction.setUnmountedFlag,
         TeardownAction.offName "connection.recovered",
         TeardownAction.offName "connection.changed",
         TeardownAction.offCallback none,
         TeardownAction.unsubscribeNetInfoCall]
          ++ (if isOfflineModeEnabled storage then [TeardownAction.storageClose]
              else []),
        none)

/-- An event delivered to a mounted component: a client connectivity event,
a reachability-change notification, or a consumer channel switch. -/
inductive BridgeEvent
  | clientEv (e : ClientEvent)
  | reachability (isConnected : Bool)
  | setChannel (ch : ChannelHandle)
deriving DecidableEq

/-- One event step: client events and channel switches update the
component; a reachability notification leaves it unchanged and produces the
call the listener makes on the client. -/
def stepBridge (client : Option Client) (c : ChatComponent) :
    BridgeEvent → ChatComponent × Option NetCall
  | BridgeEvent.clientEv e => (handleClientEvent c e, none)
  | BridgeEvent.reachability b => (c, some (netInfoListener client c b))
  | BridgeEvent.setChannel ch => (setActiveChannel c ch, none)

/-- Run a list of bridge events, collecting the calls made on the client. -/
def runBridge (client : Option Client) (c : ChatComponent) :
    List BridgeEvent → ChatComponent × List NetCall
  | [] => (c, [])
  | ev :: evs =>
      ((runBridge client (stepBridge client c ev).1 evs).1,
        (stepBridge client c ev).2.toList
          ++ (runBridge client (stepBridge client c ev).1 evs).2)

/-- The `connectionRecovering` value a single event leaves behind. -/
def eventRecovering : ClientEvent → Bool
  | ClientEvent.connectionChanged o => !o
  | ClientEvent.connectionEstablished => false
  | ClientEvent.connectionRecovered => false

/-- `connectionRecovering` after delivering a list of events to a mounted
component whose current value is `r`. -/
def recoveringAfter (r : Bool) : List ClientEvent → Bool
  | [] => r
  | e :: es => recoveringAfter (eventRecovering e) es

theorem handleClientEvent_unmounted (c : ChatComponent) (e : ClientEvent) :
    (handleClientEvent c e).unmounted = c.unmounted := by
  unfold handleClientEvent
  split
  · rfl
  · cases e <;> rfl

theorem handleClientEvent_startedOffline (c : ChatComponent) (e : ClientEvent) :
    (handleClientEvent c e).state.startedOffline = c.state.startedOffline := by
  unfold handleClientEvent
  split
  · rfl
  · cases e <;> rfl

theorem runClientEvents_startedOffline (es : List ClientEvent) :
    ∀ c : ChatComponent,
      (runClientEvents c es).state.startedOffline = c.state.startedOffline := by
  induction es with
  | nil => intro c; rfl
  | cons e es ih =>
      intro c
      calc (runClientEvents (handleClientEvent c e) es).state.startedOffline
          = (handleClientEvent c e).state.startedOffline := ih _
        _ = c.state.startedOffline := handleClientEvent_startedOffline c e

theorem runClientEvents_recovering (es : List ClientEvent) :
    ∀ c : ChatComponent, c.unmounted = false →
      (runClientEvents c es).state.connectionRecovering
        = recoveringAfter c.state.connectionRecovering es := by
  induction es with
  | nil => intro c _; rfl
  | cons e es ih =>
      intro c h
      have h2 : (handleClientEvent c e).unmounted = false := by
        rw [handleClientEvent_unmounted]; exact h
      have step : (runClientEvents c (e :: es)).state.connectionRecovering
          = recoveringAfter (handleClientEvent c e).state.connectionRecovering es :=
        ih (handleClientEvent c e) h2
      rw [step]
      cases e <;> simp [handleClientEvent, h, recoveringAfter, eventRecovering]

theorem recoveringAfter_concat (es : List ClientEvent) :
    ∀ (r : Bool) (e : ClientEvent),
      recoveringAfter r (es ++ [e]) = eventRecovering e := by
  induction es with
  | nil => intro r e; rfl
  | cons e0 es ih => intro r e; exact ih _ e

theorem setActiveChannel_startedOffline (c : ChatComponent) (ch : ChannelHandle) :
    (setActiveChannel c ch).state.startedOffline = c.state.startedOffline := by
  unfold setActiveChannel
  split <;> rfl

theorem stepBridge_startedOffline (client : Option Client) (c : ChatComponent)
    (ev : BridgeEvent) :
    (stepBridge client c ev).1.state.startedOffline = c.state.startedOffline := by
  cases ev with
  | clientEv e => exact handleClientEvent_startedOffline c e
  | reachability b => rfl
  | setChannel ch => exact setActiveChannel_startedOffline c ch

theorem netInfoListener_not_setup (client : Option Client) (c : ChatComponent)
    (b : Bool) (h : c.state.startedOffline = false) :
    netInfoListener client c b ≠ NetCall.setupConnection := by
  unfold netInfoListener
  rw [h]
  simp

theorem runBridge_no_setup (client : Option Client) (evs : List BridgeEvent) :
    ∀ c : ChatComponent, c.state.startedOffline = false →
      ∀ k ∈ (runBridge client c evs).2, k ≠ NetCall.setupConnection := by
  induction evs with
  | nil => intro c _ k hk; simp [runBridge] at hk
  | cons ev evs ih =>
      intro c h k hk
      have h2 : (stepBridge client c ev).1.state.startedOffline = false := by
        rw [stepBridge_startedOffline]; exact h
      rcases List.mem_append.mp hk with hl | hr
      · cases ev with
        | clientEv e => simp [stepBridge] at hl
        | reachability b =>
            have : k = netInfoListener client c b := by
              simpa [stepBridge] using hl
            rw [this]
            exact netInfoListener_not_setup client c b h
        | setChannel ch => simp [stepBridge] at hl
      · exact ih (stepBridge client c ev).1 h2 k hr

/-- Claim C1 (counterexample): the claim fails — after teardown has run
(here on a component whose mount-time reachability fetch had not yet
resolved, so the unmounted flag is set), the queued one-shot
reachability-fetch continuation still mutates the component's state: the
continuation carries no unmounted guard in the source. -/
theorem netInfo_fetch_mutates_state_after_teardown :
    (componentWillUnmount none initComponent).1.unmounted = true ∧
    (netInfoFetchThen none (componentWillUnmount none initComponent).1 true).1.state
      ≠ (componentWillUnmount none initComponent).1.state := by
  decide

/-- Claim C1 (amended): once teardown has set the unmounted flag, the three
client event observers and `setActiveChannel` leave the component unchanged,
and the reachability-change listener never writes component state; the
one-shot reachability-fetch continuation, however, is unguarded (see the
counterexample). -/
theorem after_teardown_observers_and_setActiveChannel_noop (c : ChatComponent)
    (h : c.unmounted = true) (e : ClientEvent) (ch : ChannelHandle)
    (client : Option Client) (b : Bool) :
    handleClientEvent c e = c ∧ setActiveChannel c ch = c ∧
    (stepBridge client c (BridgeEvent.reachability b)).1 = c := by
  refine ⟨?_, ?_, rfl⟩
  · simp [handleClientEvent, h]
  · simp [setActiveChannel, h]

/-- Claim C1 (witness): the amended theorem applied to a concrete
torn-down component. -/
theorem after_teardown_observers_and_setActiveChannel_noop_witness :
    handleClientEvent { initComponent with unmounted := true }
        ClientEvent.connectionEstablished
      = { initComponent with unmounted := true } ∧
    setActiveChannel { initComponent with unmounted := true }
        (ChannelHandle.handle 3)
      = { initComponent with unmounted := true } ∧
    (stepBridge none { initComponent with unmounted := true }
        (BridgeEvent.reachability true)).1
      = { initComponent with unmounted := true } :=
  after_teardown_observers_and_setActiveChannel_noop
    { initComponent with unmounted := true } rfl
    ClientEvent.connectionEstablished (ChannelHandle.handle 3) none true

/-- Claim C2: teardown on a mounted component with offline mode enabled
sets the flag, unregisters `connection.recovered` and `connection.changed`
by name, then calls `off` with the undefined `this.handleEvent`, calls the
reachability unsubscribe, and closes storage once — but no action ever
unregisters the `connection.established` observer, contrary to the claim
that all three observers are unregistered. -/
theorem teardown_omits_connection_established_unregistration :
    (componentWillUnmount (some (StorageArg.localStorage 0))
        { initComponent with unsubscribeNetInfo := some () }).2.1
      = [TeardownAction.setUnmountedFlag,
         TeardownAction.offName "connection.recovered",
         TeardownAction.offName "connection.changed",
         TeardownAction.offCallback none,
         TeardownAction.unsubscribeNetInfoCall,
         TeardownAction.storageClose] ∧
    TeardownAction.offName "connection.established" ∉
      (componentWillUnmount (some (StorageArg.localStorage 0))
          { initComponent with unsubscribeNetInfo := some () }).2.1 := by
  constructor
  · rfl
  · decide

/-- Claim C3: starting from the constructed component, for every sequence
of client connectivity events delivered before teardown,
`connectionRecovering` is true iff the most recent event was a
`connection.changed` event carrying `online = false`; any
`connection.established` or `connection.recovered` event, and any
`connection.changed` with `online = true`, makes it false. -/
theorem connectionRecovering_iff_last_changed_offline (es : List ClientEvent) :
    (runClientEvents initComponent es).state.connectionRecovering = true ↔
      es.getLast? = some (ClientEvent.connectionChanged false) := by
  rw [runClientEvents_recovering es initComponent rfl]
  induction es using List.reverseRecOn with
  | nil => simp [recoveringAfter, initComponent, initState]
  | append_singleton es e _ih =>
      rw [recoveringAfter_concat, List.getLast?_concat]
      cases e with
      | connectionChanged o => cases o <;> simp [eventRecovering]
      | connectionEstablished => simp [eventRecovering]
      | connectionRecovered => simp [eventRecovering]

/-- Claim C4: supplying a storage object that is not a `LocalStorage`
instance makes the constructor throw the invalid-storage error
synchronously (the error propagates as the constructor's result); with no
storage argument the constructor succeeds and the published context has
`offlineMode = false`. -/
theorem invalid_storage_fails_and_absent_storage_succeeds
    (client : Option Client) (s : StorageArg)
    (h : instanceOfLocalStorage s = false) :
    (constructorRun (some s)).2
      = Except.error "Invalid storage class provided to Chat component" ∧
    (constructorRun none).2 = Except.ok initComponent ∧
    (getContext client none initComponent).offlineMode = false := by
  refine ⟨?_, rfl, rfl⟩
  simp [constructorRun, verifyStorage, h]

/-- Claim C4 (witness): the theorem applied to a concrete
non-`LocalStorage` storage object. -/
theorem invalid_storage_fails_and_absent_storage_succeeds_witness :
    (constructorRun (some (StorageArg.otherObject 0))).2
      = Except.error "Invalid storage class provided to Chat component" ∧
    (constructorRun none).2 = Except.ok initComponent ∧
    (getContext none none initComponent).offlineMode = false :=
  invalid_storage_fails_and_absent_storage_succeeds none
    (StorageArg.otherObject 0) rfl

/-- Claim C5: when the mount-time reachability query returns false, the
state is seeded with `startedOffline = true` and `isOnline = false`, and a
later reachability-change notification reporting true — after any number of
intervening client events — makes the listener invoke the client's
`_setupConnection` routine rather than a plain status notification. -/
theorem mount_offline_seeds_and_reconnect_invokes_setup
    (client : Option Client) (es : List ClientEvent) :
    (netInfoFetchThen client initComponent false).1.state.startedOffline = true ∧
    (netInfoFetchThen client initComponent false).1.state.isOnline
      = OnlineFlag.known false ∧
    netInfoListener client
        (runClientEvents (netInfoFetchThen client initComponent false).1 es) true
      = NetCall.setupConnection := by
  refine ⟨rfl, rfl, ?_⟩
  unfold netInfoListener
  rw [runClientEvents_startedOffline]
  rfl

/-- Claim C6: when the mount-time reachability query returns true, the
state is seeded with `startedOffline = false`, and along every later
sequence of events (reachability flips included) the listener only ever
forwards plain status notifications — `_setupConnection` is never
invoked. -/
theorem mount_online_never_invokes_setup (client : Option Client)
    (evs : List BridgeEvent) :
    (netInfoFetchThen client initComponent true).1.state.startedOffline = false ∧
    ∀ k ∈ (runBridge client (netInfoFetchThen client initComponent true).1 evs).2,
      k ≠ NetCall.setupConnection := by
  refine ⟨rfl, ?_⟩
  exact runBridge_no_setup client evs _ rfl

/-- Claim C6 (witness): the theorem applied at a concrete client and a
reachability flip to false and back to true, exhibiting a concrete
forwarded call that is not a connection-establishment. -/
theorem mount_online_never_invokes_setup_witness :
    (netInfoFetchThen (some { wsConnection := some () })
        initComponent true).1.state.startedOffline = false ∧
    NetCall.notify (some StatusNotification.online) ≠ NetCall.setupConnection := by
  constructor
  · exact (mount_online_never_invokes_setup (some { wsConnection := some () }) []).1
  · exact (mount_online_never_invokes_setup (some { wsConnection := some () })
      [BridgeEvent.reachability false, BridgeEvent.reachability true]).2
      (NetCall.notify (some StatusNotification.online)) (by decide)

/-- Claim C7: before teardown, `setActiveChannel X` followed by
`getContext` yields a context whose `channel` equals `X`, for any non-null
handle `X`; once teardown has begun, `setActiveChannel` is a no-op. -/
theorem setActiveChannel_updates_context_channel_unless_torn_down
    (client : Option Client) (storage : Option StorageArg)
    (c : ChatComponent) (X : ChannelHandle) :
    (c.unmounted = false → X ≠ ChannelHandle.null →
        (getContext client storage (setActiveChannel c X)).channel = X) ∧
    (c.unmounted = true → setActiveChannel c X = c) := by
  constructor
  · intro h _
    simp [setActiveChannel, getContext, h]
  · intro h
    simp [setActiveChannel, h]

/-- Claim C8: when the supplied storage object fails the `LocalStorage`
instance test, the constructor's action trace is exactly the three client
observer registrations — so the registrations precede the validation check
and the failing constructor performs no unregistration — and its result is
an error. -/
theorem failing_constructor_leaves_observers_registered (s : StorageArg)
    (h : instanceOfLocalStorage s = false) :
    (constructorRun (some s)).1
      = [ConstructorAction.register "connection.changed",
         ConstructorAction.register "connection.established",
         ConstructorAction.register "connection.recovered"] ∧
    ∃ msg, (constructorRun (some s)).2 = Except.error msg := by
  constructor
  · simp [constructorRun, verifyStorage, h]
  · exact ⟨"Invalid storage class provided to Chat component",
      by simp [constructorRun, verifyStorage, h]⟩

/-- Claim C8 (witness): the theorem applied to a concrete
non-`LocalStorage` storage object. -/
theorem failing_constructor_leaves_observers_registered_witness :
    (constructorRun (some (StorageArg.otherObject 7))).1
      = [ConstructorAction.register "connection.changed",
         ConstructorAction.register "connection.established",
         ConstructorAction.register "connection.recovered"] ∧
    ∃ msg, (constructorRun (some (StorageArg.otherObject 7))).2
      = Except.error msg :=
  failing_constructor_leaves_observers_registered (StorageArg.otherObject 7) rfl

/-- Claim C9: when teardown runs while `unsubscribeNetInfo` is still null
(the mount-time reachability fetch has not resolved), its unconditional
call `this.unsubscribeNetInfo()` throws a TypeError. -/
theorem teardown_before_fetch_resolution_throws (storage : Option StorageArg)
    (c : ChatComponent) (h : c.unsubscribeNetInfo = none) :
    (componentWillUnmount storage c).2.2
      = some "TypeError: this.unsubscribeNetInfo is not a function" := by
  simp [componentWillUnmount, h]

/-- Claim C9 (witness): the theorem applied to the freshly constructed
component, whose `unsubscribeNetInfo` field is still null. -/
theorem teardown_before_fetch_resolution_throws_witness :
    (componentWillUnmount none initComponent).2.2
      = some "TypeError: this.unsubscribeNetInfo is not a function" :=
  teardown_before_fetch_resolution_throws none initComponent rfl

/-- Claim C10: `notifyChatClient` sends a notification (type online when
reachable, offline otherwise) exactly when both the client handle and its
`wsConnection` are non-null, and is silently skipped (returning nothing,
never raising — the function is total) when either is null. -/
theorem notifyChatClient_skips_when_client_or_ws_absent
    (client : Option Client) (b : Bool) :
    (∀ cl, client = some cl → ∀ w, cl.wsConnection = some w →
        notifyChatClient client b
          = some (if b then StatusNotification.online
              else StatusNotification.offline)) ∧
    ((client = none ∨ ∃ cl, client = some cl ∧ cl.wsConnection = none) →
        notifyChatClient client b = none) := by
  constructor
  · intro cl hcl w hw
    subst hcl
    cases b <;> simp [notifyChatClient, hw]
  · intro h
    rcases h with rfl | ⟨cl, rfl, hw⟩
    · rfl
    · simp [notifyChatClient, hw]

end StreamChat
